import Mathlib

set_option maxRecDepth 100000

/-!
Verification of the `code-analyzer` CLI wrapper.

This file shallowly embeds the Python sources
`analyze_codebase.py` and `config_manager.py` into Lean, and proves
the testable properties of the natural-language specification against
that embedding.

Modelling conventions:
* Python strings are Lean `String`s; `'pat' in s` (substring test) is
  `strContainsB s pat`; `s.startswith p` is `String.startsWith`.
* Python optional arguments of string type are `Option String`; Python
  truthiness of such an argument (`if target:`) is `t ≠ ""` on the
  payload, `false` on `none`.
* The file system and subprocess environment are explicit parameters:
  the state of the config file is a `ConfigFile` value, subprocess
  execution outcomes are a `SubprocessOutcome` value and side-file
  writes a `WriteOutcome` value, so every function of the code becomes
  a total function of its inputs and its environment.
* JSON values are the inductive `Json`; Python `in` and subscripting on
  a parsed JSON value are modelled with their exception behaviour
  (`TypeError` / `KeyError`), since that behaviour is observable in
  `config_manager.py`.
-/

/-- Boolean substring test, the embedding of Python's `pat in s` for
strings: some tail of `s` has `pat` as a prefix. -/
def strContainsB (s pat : String) : Bool :=
  s.data.tails.any fun t => pat.data.isPrefixOf t

/-- The shared analysis prompt catalog `ANALYSIS_PROMPTS` of
`analyze_codebase.py`, a two-level association list from scenario and
target to the literal prompt string. -/
def ANALYSIS_PROMPTS : List (String × List (String × String)) :=
  [ ("patterns",
      [ ("authentication", "Analyze this codebase and identify all authentication and authorization patterns. Focus on login flows, session management, token handling, access control mechanisms, and security policies."),
        ("data-flow", "Analyze data flow and state management patterns throughout the codebase. Identify how data is stored, updated, shared, and propagated across components or modules."),
        ("api-usage", "Catalog all API usage patterns in this application. Include API design, integration patterns, error handling, and how different parts of the system communicate."),
        ("component-structure", "Examine component and module organization patterns. Identify component hierarchies, module boundaries, reusable patterns, and code organization strategies.") ]),
    ("architecture",
      [ ("overview", "Analyze the overall system architecture. Identify the main components, data flow, service boundaries, integration patterns, and key architectural decisions."),
        ("data-architecture", "Examine the data architecture including data models, data access patterns, database schemas, and data transformation processes."),
        ("integration", "Analyze integration patterns with external services, message systems, and communication protocols used throughout the application.") ]),
    ("quality",
      [ ("performance", "Analyze this codebase for potential performance issues. Look for bottlenecks, optimization opportunities, resource usage patterns, and scalability considerations."),
        ("security", "Scan this codebase for potential security vulnerabilities. Look for authentication issues, input validation problems, data protection gaps, and security best practices violations."),
        ("maintainability", "Assess code maintainability by examining code complexity, coupling, cohesion, readability, and adherence to coding standards.") ]),
    ("review",
      [ ("systematic", "Perform a systematic code review. Identify code smells, anti-patterns, technical debt, improvement areas, and adherence to best practices."),
        ("security", "Conduct a security-focused code review. Look for potential security vulnerabilities, data handling issues, and access control weaknesses."),
        ("performance", "Perform a performance-focused code review. Identify performance bottlenecks, optimization opportunities, and resource usage patterns."),
        ("architecture", "Conduct an architecture review. Evaluate architectural decisions, design patterns, service boundaries, and technology choices.") ]),
    ("audit",
      [ ("dependencies", "Analyze all third-party dependencies and libraries. Assess usage patterns, security vulnerabilities, version management, and maintenance considerations."),
        ("testing", "Examine the testing strategy and test coverage. Identify testing patterns, quality gates, and areas that might need more comprehensive testing."),
        ("migration", "Assess migration readiness by evaluating the current technology stack, dependency compatibility, and code health for potential upgrades.") ]),
    ("features",
      [ ("trace", "Trace the implementation of a specific feature throughout the codebase. Show all files involved, data flow, API endpoints, UI components, and how the feature integrates with the rest of the system."),
        ("api-endpoints", "Catalog all API endpoints in this application. Include REST routes, GraphQL resolvers, tRPC procedures, their request/response patterns, authentication requirements, and how they\x27re consumed by the frontend."),
        ("react-hooks", "Analyze this codebase and identify all React hooks usage patterns. Show how useState, useEffect, useContext, and custom hooks are being used. Include examples of best practices and potential issues."),
        ("database-queries", "Find all database query patterns in this codebase. Include SQL queries, ORM usage, connection handling, and any database-related utilities. Show the different approaches used.") ]),
    ("documentation",
      [ ("onboarding", "Analyze this codebase to help create onboarding documentation. Identify key concepts developers need to understand, important files and directories, setup requirements, and the most critical patterns to learn first."),
        ("architecture", "Generate comprehensive architecture documentation. Identify the main components, data flow, service boundaries, key design decisions, and how different parts of the system interact."),
        ("api-reference", "Generate API reference documentation. Document all endpoints, their parameters, responses, authentication requirements, and usage examples.") ]) ]

/-- The prompt-construction part of `get_analysis_command`
(`analyze_codebase.py` lines 78-89): catalog lookup with generic
fallbacks, then optional context suffixing.  The Python guard
`if target and target in ANALYSIS_PROMPTS[analysis_scenario]` is
truthiness (`none` / `some ""` falls through to the generic prompt),
and so is the guard `if context:`. -/
def analysis_prompt (analysis_scenario : String) (target context : Option String) : String :=
  let prompt :=
    match ANALYSIS_PROMPTS.lookup analysis_scenario with
    | some targets =>
      match target with
      | some t =>
        if t ≠ "" then
          match targets.lookup t with
          | some p => p
          | none => "Perform " ++ analysis_scenario ++ " analysis on this codebase. Provide comprehensive insights and identify key patterns."
        else
          "Perform " ++ analysis_scenario ++ " analysis on this codebase. Provide comprehensive insights and identify key patterns."
      | none => "Perform " ++ analysis_scenario ++ " analysis on this codebase. Provide comprehensive insights and identify key patterns."
    | none => "Analyze this codebase focusing on " ++ analysis_scenario ++ ". Provide comprehensive insights and identify key patterns."
  match context with
  | some c => if c ≠ "" then prompt ++ " Context: " ++ c else prompt
  | none => prompt

/-- Embedding of `get_analysis_command` (`analyze_codebase.py`
lines 64-99).  The tool resolved from the configuration
(`ConfigManager().get_preferred_tool()`) is passed in explicitly as
`preferred_tool`. -/
def get_analysis_command (preferred_tool analysis_scenario : String)
    (target context : Option String) : String :=
  let prompt := analysis_prompt analysis_scenario target context
  if preferred_tool == "gemini" then
    "geminicli --all-files --yolo -p \"" ++ prompt ++ "\""
  else
    "qwen --all-files --yolo -p \"" ++ prompt ++ "\""

/-- Embedding of the duplicated helper `_get_analysis_command_for_tool`
(`analyze_codebase.py` lines 112-131), with its own inline copy of the
prompt construction, as in the source. -/
def _get_analysis_command_for_tool (analysis_scenario : String)
    (target : Option String) (tool : String) : String :=
  let prompt :=
    match ANALYSIS_PROMPTS.lookup analysis_scenario with
    | some targets =>
      match target with
      | some t =>
        if t ≠ "" then
          match targets.lookup t with
          | some p => p
          | none => "Perform " ++ analysis_scenario ++ " analysis on this codebase. Provide comprehensive insights and identify key patterns."
        else
          "Perform " ++ analysis_scenario ++ " analysis on this codebase. Provide comprehensive insights and identify key patterns."
      | none => "Perform " ++ analysis_scenario ++ " analysis on this codebase. Provide comprehensive insights and identify key patterns."
    | none => "Analyze this codebase focusing on " ++ analysis_scenario ++ ". Provide comprehensive insights and identify key patterns."
  if tool == "gemini" then
    "geminicli --all-files --yolo -p \"" ++ prompt ++ "\""
  else if tool == "qwen" then
    "qwen --all-files --yolo -p \"" ++ prompt ++ "\""
  else
    "code-analyzer --all-files --comprehensive -p \"" ++ prompt ++ "\""

/-- Specification-side context suffix: the text appended to a prompt
when a context argument is supplied; empty when the context is absent
or the empty string. -/
def ctxSuffix : Option String → String
  | none => ""
  | some c => if c = "" then "" else " Context: " ++ c

/-! ## Configuration manager (`config_manager.py`) -/

/-- JSON values, as produced by `json.load`.  Objects are association
lists; `json.load` never produces an object with duplicate keys (a
later duplicate overwrites an earlier one during parsing), so the
embedding may assume the key lists it is given are duplicate-free where
that matters. -/
inductive Json where
  | null : Json
  | bool (b : Bool) : Json
  | num (n : Int) : Json
  | str (s : String) : Json
  | arr (elems : List Json) : Json
  | obj (kvs : List (String × Json)) : Json

/-- Python exceptions that the modelled fragment of
`config_manager.py` can observe. -/
inductive PyExc where
  | typeError : PyExc
  | keyError : PyExc
  | valueError : PyExc
  | ioError : PyExc
deriving DecidableEq

/-- State of the config file `~/.claude/code_analyzer_config.json` as
seen by one call: missing, unreadable (opening or reading raises
`IOError`), present but not valid JSON, or present and parsing to a
JSON value. -/
inductive ConfigFile where
  | absent : ConfigFile
  | readError : ConfigFile
  | malformed : ConfigFile
  | parsed (j : Json) : ConfigFile

/-- Equality test of a JSON value against a Python string literal, the
embedding of `j == "lit"`: true exactly for the equal JSON string
(Python cross-type equality with a string is false, never an error). -/
def isStrEq (j : Json) (s : String) : Bool :=
  match j with
  | .str t => t == s
  | _ => false

/-- Embedding of Python's `key in config` on a parsed JSON value:
substring test on strings, element membership on arrays, key membership
on objects, and `TypeError` on values that are not containers. -/
def pyContains (j : Json) (key : String) : Except PyExc Bool :=
  match j with
  | .obj kvs => .ok (kvs.any fun p => p.1 == key)
  | .arr elems => .ok (elems.any fun e => isStrEq e key)
  | .str s => .ok (strContainsB s key)
  | _ => .error .typeError

/-- Embedding of Python's `config[key]` with a string key on a parsed
JSON value: lookup on objects (missing key raises `KeyError`), and
`TypeError` on every other value (string and list subscripts must be
integers; other values are not subscriptable). -/
def pyGetStrKey (j : Json) (key : String) : Except PyExc Json :=
  match j with
  | .obj kvs =>
    match kvs.lookup key with
    | some v => .ok v
    | none => .error .keyError
  | _ => .error .typeError

/-- Embedding of `ConfigManager.get_preferred_tool`
(`config_manager.py` lines 21-39).  The `try` block catches only
`json.JSONDecodeError`, `KeyError` and `IOError`; a `TypeError` raised
by `in` or by subscripting a non-object top-level JSON value
propagates to the caller, which the `Except` error case records. -/
def get_preferred_tool (file : ConfigFile) : Except PyExc String :=
  match file with
  | .absent => .ok "qwen"
  | .readError => .ok "qwen"
  | .malformed => .ok "qwen"
  | .parsed config =>
    match pyContains config "preferred_tool" with
    | .error e => .error e
    | .ok false => .ok "qwen"
    | .ok true =>
      match pyGetStrKey config "preferred_tool" with
      | .error .keyError => .ok "qwen"
      | .error e => .error e
      | .ok v =>
        if isStrEq v "gemini" || isStrEq v "qwen" then
          .ok (match v with | .str s => s | _ => "qwen")
        else
          .ok "qwen"

/-- Python dictionary update `config[key] = v` on an association list:
replace the binding if the key is present, otherwise append it.  (On
the duplicate-free lists produced by `json.load` this is exactly the
Python dict update.) -/
def dictSet (kvs : List (String × Json)) (key : String) (v : Json) :
    List (String × Json) :=
  if kvs.any fun p => p.1 == key then
    kvs.map fun p => if p.1 == key then (key, v) else p
  else
    kvs ++ [(key, v)]

/-- File-system state relevant to `ConfigManager`: whether the config
file's parent directory exists, and the config file itself. -/
structure FsState where
  dirExists : Bool
  file : ConfigFile

/-- Result of a `set_preferred_tool` call: the exception it raised, if
any, and the file-system state after the call. -/
structure SetResult where
  exc : Option PyExc
  fs : FsState

/-- Embedding of `ConfigManager.set_preferred_tool`
(`config_manager.py` lines 41-71).  `writeOk` says whether the final
`open(..., 'w')`/`json.dump` succeeds; on a write `IOError` the code
re-raises, and the partially written file contents are not modelled
(the prior file state is kept in that branch).  Reading a config file
that parses to a non-object makes `config["preferred_tool"] = tool`
raise an uncaught `TypeError`. -/
def set_preferred_tool (st : FsState) (tool : String) (writeOk : Bool) :
    SetResult :=
  if tool ≠ "gemini" ∧ tool ≠ "qwen" then
    { exc := some .valueError, fs := st }
  else
    let st1 : FsState := { st with dirExists := true }
    match st1.file with
    | .parsed (.obj kvs) =>
      if writeOk then
        { exc := none,
          fs := { st1 with
                    file := .parsed (.obj (dictSet kvs "preferred_tool" (.str tool))) } }
      else
        { exc := some .ioError, fs := st1 }
    | .parsed _ =>
      { exc := some .typeError, fs := st1 }
    | _ =>
      if writeOk then
        { exc := none,
          fs := { st1 with
                    file := .parsed (.obj (dictSet [] "preferred_tool" (.str tool))) } }
      else
        { exc := some .ioError, fs := st1 }

/-- Specification-side description of the preference read, written
from the amended wording of the spec: the stored name is returned for
a JSON object whose `preferred_tool` value is one of the two tool
names; the default is returned for a missing, unreadable or malformed
file, for an object without a valid entry, and for a top-level string
or array that does not contain the probe key; a `TypeError` escapes
for every other top-level value. -/
def specGetTool (file : ConfigFile) : Except PyExc String :=
  match file with
  | .parsed (.obj kvs) =>
    match kvs.lookup "preferred_tool" with
    | some (.str s) => if s = "gemini" ∨ s = "qwen" then .ok s else .ok "qwen"
    | _ => .ok "qwen"
  | .parsed (.str s) =>
    if strContainsB s "preferred_tool" then .error .typeError else .ok "qwen"
  | .parsed (.arr elems) =>
    if elems.any fun e => isStrEq e "preferred_tool" then .error .typeError
    else .ok "qwen"
  | .parsed _ => .error .typeError
  | _ => .ok "qwen"

/-! ## Execution engine (`analyze_codebase.py`) -/

/-- Outcome of the `subprocess.run` call inside `execute_analysis`:
normal completion with an exit code and captured streams, a
`subprocess.TimeoutExpired`, or any other exception (whose `str(e)` is
the payload). -/
inductive SubprocessOutcome where
  | completed (returncode : Int) (stdout stderr : String) : SubprocessOutcome
  | timedOut : SubprocessOutcome
  | execError (msg : String) : SubprocessOutcome

/-- The result dictionary of `execute_analysis`. -/
structure ExecResult where
  success : Bool
  returncode : Int
  stdout : String
  stderr : String
  command : String
deriving DecidableEq

/-- Embedding of `execute_analysis` (`analyze_codebase.py`
lines 133-185).  The subprocess environment is the explicit `outcome`
argument; every branch of the Python `try`/`except` produces a result
dictionary, so the embedding is a total function. -/
def execute_analysis (preferred_tool analysis_scenario : String)
    (target context : Option String) (timeout : Nat)
    (outcome : SubprocessOutcome) : ExecResult :=
  let command := get_analysis_command preferred_tool analysis_scenario target context
  match outcome with
  | .completed rc out err =>
    { success := rc == 0, returncode := rc, stdout := out, stderr := err,
      command := command }
  | .timedOut =>
    { success := false, returncode := -1, stdout := "",
      stderr := "Command timed out after " ++ toString timeout ++ " seconds",
      command := command }
  | .execError msg =>
    { success := false, returncode := -1, stdout := "",
      stderr := "Execution failed: " ++ msg, command := command }

/-- The line-keeping predicate of the summary-extraction loop of
`execute_analysis_optimized` (`analyze_codebase.py` lines 236-243), in
the source's condition order. -/
def keepLine (line : String) (i : Nat) : Bool :=
  line.startsWith "#" || strContainsB line "Summary" || strContainsB line "Key" ||
    strContainsB line "Important" || strContainsB line "##" || decide (i < 5)

/-- The `for i, line in enumerate(lines[:50])` loop of
`execute_analysis_optimized` (lines 236-246): append each kept line
and break once 30 lines have been collected (the length check follows
the append, as in the source).  `i` is the index of the head of the
remaining list, `acc` the kept lines in reverse. -/
def summaryLoop : List String → Nat → List String → List String
  | [], _, acc => acc.reverse
  | line :: rest, i, acc =>
    if keepLine line i then
      let acc1 := line :: acc
      if 30 ≤ acc1.length then acc1.reverse
      else summaryLoop rest (i + 1) acc1
    else
      summaryLoop rest (i + 1) acc

/-- The summary string computed by `execute_analysis_optimized`
(lines 231-253) from the captured stdout: the loop result, padded with
the first 20 raw lines and re-capped at 30 when fewer than 10 lines
were kept. -/
def extractSummary (stdout : String) : String :=
  let lines := stdout.splitOn "\n"
  let summary_lines := summaryLoop (lines.take 50) 0 []
  if summary_lines.length < 10 then
    String.intercalate "\n" ((summary_lines ++ lines.take 20).take 30)
  else
    String.intercalate "\n" summary_lines

/-- An eighty-character `=` separator, Python's `"=" * 80`. -/
def sep80 : String :=
  String.mk (List.replicate 80 (Char.ofNat 61))

/-- The text `execute_analysis_optimized` writes to the side file
(lines 213-221) for a base result `r`, given the human-readable
timestamp string `time.ctime()`. -/
def sideFileContent (r : ExecResult) (ctime : String) : String :=
  "Command: " ++ r.command ++ "\n" ++
    "Timestamp: " ++ ctime ++ "\n" ++
    sep80 ++ "\n\n" ++
    r.stdout ++
    (if r.stderr ≠ "" then "\n\n" ++ sep80 ++ "\n" ++ "STDERR:\n" ++ r.stderr
     else "")

/-- Outcome of the side-file write inside
`execute_analysis_optimized`: success, or an exception with message
`msg`. -/
inductive WriteOutcome where
  | ok : WriteOutcome
  | failed (msg : String) : WriteOutcome

/-- A result dictionary of the optimized or retry paths.  Python
builds heterogeneous dictionaries here; key presence is modelled with
`Option` fields (the optimized success dictionary carries no
`stdout`/`stderr` keys, the failure dictionaries no summary keys). -/
structure AnalysisResult where
  success : Bool
  returncode : Int
  stdout : Option String
  stderr : Option String
  command : String
  summary : Option String
  full_output_path : Option String
  total_lines : Option Nat
  retry_info : Option String
deriving DecidableEq

/-- A base result passed through unchanged as an optimized-path
result (dictionary keys unchanged). -/
def toAnalysis (r : ExecResult) : AnalysisResult :=
  { success := r.success, returncode := r.returncode, stdout := some r.stdout,
    stderr := some r.stderr, command := r.command, summary := none,
    full_output_path := none, total_lines := none, retry_info := none }

/-- Embedding of `execute_analysis_optimized` (`analyze_codebase.py`
lines 187-262).  `timestamp` is `int(time.time())`, `ctime` is
`time.ctime()` and `write` the outcome of the side-file write; the
side-file text itself is `sideFileContent` of the base result. -/
def execute_analysis_optimized (preferred_tool analysis_scenario : String)
    (target context : Option String) (timeout : Nat)
    (outcome : SubprocessOutcome) (timestamp : Nat) (ctime : String)
    (write : WriteOutcome) : AnalysisResult :=
  let result := execute_analysis preferred_tool analysis_scenario target context
    timeout outcome
  if !result.success then
    toAnalysis result
  else
    match write with
    | .failed msg =>
      { success := false, returncode := -1, stdout := some "",
        stderr := some ("Failed to save output file: " ++ msg),
        command := result.command, summary := none, full_output_path := none,
        total_lines := none, retry_info := none }
    | .ok =>
      let lines := result.stdout.splitOn "\n"
      { success := true, returncode := result.returncode, stdout := none,
        stderr := none, command := result.command,
        summary := some (extractSummary result.stdout),
        full_output_path :=
          some ("/tmp/code-analysis-" ++ toString timestamp ++ ".txt"),
        total_lines := some lines.length, retry_info := none }

/-- Environment of one attempt of the retry loop: the subprocess
outcome and the side-file parameters seen by that attempt's
`execute_analysis_optimized` call. -/
structure AttemptEnv where
  outcome : SubprocessOutcome
  timestamp : Nat
  ctime : String
  write : WriteOutcome

/-- The optimized run performed by attempt `e` of the retry loop. -/
def attemptRun (preferred_tool analysis_scenario : String)
    (target context : Option String) (timeout : Nat) (e : AttemptEnv) :
    AnalysisResult :=
  execute_analysis_optimized preferred_tool analysis_scenario target context
    timeout e.outcome e.timestamp e.ctime e.write

/-- The `retry_info` annotation string of the retry loop
(`analyze_codebase.py` line 286), including the source's spelling of
the plural. -/
def retryInfoStr (attempt : Nat) : String :=
  "Succeeded after " ++ toString attempt ++ " retry" ++
    (if 1 < attempt then "s" else "")

/-- The `for attempt in range(max_retries + 1)` loop of
`execute_analysis_with_retry` (lines 280-312).  `attempt` is the
current attempt index and `remaining` the number of loop iterations
left after this one (`max_retries - attempt`).  The broad
`except Exception` arm of the source is unreachable because
`execute_analysis_optimized` returns on every path, so the loop either
returns a successful attempt's result (annotated when `attempt > 0`)
or falls through to the exhaustion result. -/
def retryLoop (preferred_tool analysis_scenario : String)
    (target context : Option String) (timeout : Nat) (env : Nat → AttemptEnv)
    (max_retries : Nat) (attempt : Nat) (remaining : Nat) : AnalysisResult :=
    let result := attemptRun preferred_tool analysis_scenario target context
      timeout (env attempt)
    if result.success then
      if 0 < attempt then { result with retry_info := some (retryInfoStr attempt) }
      else result
    else
      match remaining with
      | 0 =>
        { success := false, returncode := -1, stdout := some "",
          stderr := some ("Analysis failed after " ++ toString max_retries ++
            " retries"),
          command := "unknown", summary := none, full_output_path := none,
          total_lines := none, retry_info := none }
      | r + 1 =>
        retryLoop preferred_tool analysis_scenario target context timeout env
          max_retries (attempt + 1) r

/-- Embedding of `execute_analysis_with_retry` (`analyze_codebase.py`
lines 264-312): run the loop from attempt 0 with `max_retries`
iterations remaining. -/
def execute_analysis_with_retry (preferred_tool analysis_scenario : String)
    (target context : Option String) (timeout : Nat) (env : Nat → AttemptEnv)
    (max_retries : Nat) : AnalysisResult :=
  retryLoop preferred_tool analysis_scenario target context timeout env
    max_retries 0 max_retries

/-! ## Specification-side definitions

These definitions follow the words of the specification and of the
claims, for comparison with the code-side definitions above. -/

/-- Line-keeping predicate as worded by the specification: index below
five, or a header line, or a line containing one of the marker
words. -/
def specKeep (line : String) (i : Nat) : Bool :=
  decide (i < 5) || line.startsWith "#" || strContainsB line "Summary" ||
    strContainsB line "Key" || strContainsB line "Important" ||
    strContainsB line "##"

/-- Lines kept by the summary scan as worded by the claim: among the
first fifty lines, those satisfying `specKeep` at their index, stopping
once thirty lines are kept. -/
def specKept (lines : List String) : List String :=
  ((((lines.take 50).enum).filter fun p => specKeep p.2 p.1).map Prod.snd).take 30

/-- The summary as worded by the claim: the kept lines, or, when fewer
than ten were kept, the kept lines padded with the plain prefix slice
of the first twenty lines and re-capped at thirty. -/
def specSummary (stdout : String) : String :=
  let lines := stdout.splitOn "\n"
  let kept := specKept lines
  if kept.length < 10 then
    String.intercalate "\n" ((kept ++ lines.take 20).take 30)
  else
    String.intercalate "\n" kept

/-- The first line of a text: its characters up to the first
newline. -/
def firstLineStr (s : String) : String :=
  String.mk (s.data.takeWhile fun c => c != '\n')

/-! ## Helper lemmas -/

theorem isPrefixOf_self {α : Type} [BEq α] [LawfulBEq α] :
    ∀ l : List α, l.isPrefixOf l = true
  | [] => by simp
  | _ :: as => by simp [isPrefixOf_self as]

theorem isPrefixOf_append_self {α : Type} [BEq α] [LawfulBEq α] :
    ∀ l m : List α, l.isPrefixOf (l ++ m) = true
  | [], _ => by simp
  | _ :: as, m => by simp [isPrefixOf_append_self as m]

theorem isPrefixOf_append_of {α : Type} [BEq α] :
    ∀ (s t m : List α), s.isPrefixOf t = true → s.isPrefixOf (t ++ m) = true
  | [], _, _, _ => by simp
  | _ :: _, [], _, h => by simp [List.isPrefixOf] at h
  | a :: as, b :: bs, m, h => by
    simp only [List.cons_append, List.isPrefixOf_cons₂, Bool.and_eq_true] at h ⊢
    exact ⟨h.1, isPrefixOf_append_of as bs m h.2⟩

theorem tails_any_of_isPrefixOf {α : Type} [BEq α] (ls l : List α)
    (h : ls.isPrefixOf l = true) :
    (l.tails.any fun t => ls.isPrefixOf t) = true := by
  cases l with
  | nil => simpa using h
  | cons a as => simp [List.tails_cons, h]

theorem tails_any_append {α : Type} [BEq α] (ls m : List α)
    (h : (m.tails.any fun t => ls.isPrefixOf t) = true) :
    ∀ l₁ : List α, (((l₁ ++ m).tails.any fun t => ls.isPrefixOf t)) = true
  | [] => by simpa using h
  | a :: l₁ => by
    rw [List.cons_append]
    simp only [List.tails_cons, List.any_cons]
    rw [tails_any_append ls m h l₁]
    simp

theorem tails_any_append_right {α : Type} [BEq α] (s : List α) :
    ∀ (l m : List α), (l.tails.any fun t => s.isPrefixOf t) = true →
      ((l ++ m).tails.any fun t => s.isPrefixOf t) = true
  | [], m, h => by
    rw [List.nil_append]
    cases s with
    | nil => exact tails_any_of_isPrefixOf [] m (by simp)
    | cons a as => simp [List.tails] at h
  | a :: l, m, h => by
    rw [List.cons_append]
    simp only [List.tails_cons, List.any_cons] at h ⊢
    rw [Bool.or_eq_true] at h ⊢
    cases h with
    | inl hp => exact Or.inl (isPrefixOf_append_of _ _ _ hp)
    | inr hrest => exact Or.inr (tails_any_append_right s l m hrest)

/-- A string contains itself as a suffix of any left extension. -/
theorem strContainsB_append_self (a s : String) :
    strContainsB (a ++ s) s = true := by
  unfold strContainsB
  rw [String.data_append]
  exact tails_any_append s.data s.data
    (tails_any_of_isPrefixOf s.data s.data (isPrefixOf_self s.data)) a.data

/-- Substring containment is preserved by appending on the right. -/
theorem strContainsB_append_right (x y s : String)
    (h : strContainsB x s = true) : strContainsB (x ++ y) s = true := by
  unfold strContainsB at h ⊢
  rw [String.data_append]
  exact tails_any_append_right s.data x.data y.data h

theorem mem_map_snd_of_lookup {α β : Type} [BEq α] :
    ∀ (l : List (α × β)) (a : α) (b : β), l.lookup a = some b →
      b ∈ l.map Prod.snd
  | [], _, _, h => by simp at h
  | (k, v) :: es, a, b, h => by
    rw [List.lookup_cons] at h
    cases hk : a == k with
    | true =>
      rw [hk] at h
      cases h
      simp
    | false =>
      rw [hk] at h
      simp only [List.map_cons, List.mem_cons]
      exact Or.inr (mem_map_snd_of_lookup es a b h)

/-- No target table of the catalog has the empty string as a key. -/
theorem catalog_no_empty_key :
    ∀ tg ∈ ANALYSIS_PROMPTS.map Prod.snd, tg.lookup "" = none := by
  decide

theorem catalog_lookup_empty (s : String) (tg : List (String × String))
    (h : ANALYSIS_PROMPTS.lookup s = some tg) : tg.lookup "" = none :=
  catalog_no_empty_key tg (mem_map_snd_of_lookup ANALYSIS_PROMPTS s tg h)

/-- Key membership by `any` agrees with `lookup` success. -/
theorem anyKey_eq_lookup_isSome {β : Type} :
    ∀ (kvs : List (String × β)) (k : String),
      (kvs.any fun p => p.1 == k) = (kvs.lookup k).isSome
  | [], _ => rfl
  | (a, b) :: es, k => by
    rw [List.any_cons, List.lookup_cons]
    have hc : ((a, b).1 == k) = (k == a) := Bool.beq_comm
    rw [hc]
    cases hk : k == a with
    | true => simp
    | false => simp [anyKey_eq_lookup_isSome es k]

theorem lookup_map_dictSet {β : Type} (k : String) (v : β) :
    ∀ kvs : List (String × β), (kvs.any fun p => p.1 == k) = true →
      ((kvs.map fun p => if p.1 == k then (k, v) else p).lookup k) = some v
  | [], h => by simp at h
  | (a, b) :: es, h => by
    rw [List.any_cons, Bool.or_eq_true] at h
    simp only [List.map_cons]
    cases ha : (a, b).1 == k with
    | true =>
      rw [if_pos rfl]
      exact List.lookup_cons_self
    | false =>
      rw [if_neg (by simp)]
      rw [List.lookup_cons]
      have hka : (k == a) = false := by
        rw [Bool.beq_comm]
        simpa using ha
      rw [hka]
      exact lookup_map_dictSet k v es (by
        rcases h with h | h
        · rw [ha] at h; cases h
        · exact h)

theorem lookup_append_dictSet {β : Type} (k : String) (v : β) :
    ∀ kvs : List (String × β), (kvs.lookup k).isSome = false →
      (kvs ++ [(k, v)]).lookup k = some v
  | [], _ => List.lookup_cons_self
  | (a, b) :: es, h => by
    rw [List.lookup_cons] at h
    rw [List.cons_append, List.lookup_cons]
    cases hk : k == a with
    | true => rw [hk] at h; simp at h
    | false =>
      rw [hk] at h
      exact lookup_append_dictSet k v es h

/-- After a dictionary update, looking up the updated key finds the new
value. -/
theorem lookup_dictSet_self (kvs : List (String × Json)) (k : String)
    (v : Json) : (dictSet kvs k v).lookup k = some v := by
  unfold dictSet
  split
  case isTrue h => exact lookup_map_dictSet k v kvs h
  case isFalse h =>
    refine lookup_append_dictSet k v kvs ?_
    rw [← anyKey_eq_lookup_isSome]
    exact Bool.of_not_eq_true h

theorem lookup_map_dictSet_ne {β : Type} (k : String) (v : β) (k' : String)
    (hk : (k' == k) = false) :
    ∀ kvs : List (String × β),
      ((kvs.map fun p => if p.1 == k then (k, v) else p).lookup k') =
        kvs.lookup k'
  | [] => rfl
  | (a, b) :: es => by
    simp only [List.map_cons]
    cases ha : (a, b).1 == k with
    | true =>
      rw [if_pos rfl]
      rw [List.lookup_cons, List.lookup_cons, hk]
      have hae : a = k := by simpa using ha
      have hka : (k' == a) = false := by rw [hae]; exact hk
      rw [hka]
      exact lookup_map_dictSet_ne k v k' hk es
    | false =>
      rw [if_neg (by simp)]
      rw [List.lookup_cons, List.lookup_cons]
      cases k' == a with
      | true => rfl
      | false => exact lookup_map_dictSet_ne k v k' hk es

/-- A dictionary update leaves the bindings of every other key
unchanged. -/
theorem lookup_dictSet_ne (kvs : List (String × Json)) (k : String)
    (v : Json) (k' : String) (hne : k' ≠ k) :
    (dictSet kvs k v).lookup k' = kvs.lookup k' := by
  have hk : (k' == k) = false := by
    rw [beq_eq_false_iff_ne]
    exact hne
  unfold dictSet
  split
  case isTrue _ => exact lookup_map_dictSet_ne k v k' hk kvs
  case isFalse _ =>
    rw [List.lookup_append]
    rw [List.lookup_cons, hk]
    simp [List.lookup_nil]

/-- Reading the configuration right after a successful dictionary
update with a valid tool name returns that tool name. -/
theorem get_preferred_tool_dictSet (kvs : List (String × Json))
    (tool : String) (htool : tool = "gemini" ∨ tool = "qwen") :
    get_preferred_tool
        (ConfigFile.parsed (Json.obj (dictSet kvs "preferred_tool" (Json.str tool)))) =
      Except.ok tool := by
  have hl : (dictSet kvs "preferred_tool" (Json.str tool)).lookup "preferred_tool" =
      some (Json.str tool) := lookup_dictSet_self kvs "preferred_tool" (Json.str tool)
  have ha : ((dictSet kvs "preferred_tool" (Json.str tool)).any
      fun p => p.1 == "preferred_tool") = true := by
    rw [anyKey_eq_lookup_isSome, hl]
    rfl
  simp only [get_preferred_tool, pyContains, pyGetStrKey, ha, hl]
  rcases htool with rfl | rfl <;> simp [isStrEq]

/-- A successful `takeWhile` prefix passes through an append. -/
theorem takeWhile_append_all {α : Type} (p : α → Bool) :
    ∀ (l₁ l₂ : List α), (∀ c ∈ l₁, p c = true) →
      (l₁ ++ l₂).takeWhile p = l₁ ++ l₂.takeWhile p
  | [], l₂, _ => by simp
  | a :: l₁, l₂, h => by
    have ha : p a = true := h a (by simp)
    rw [List.cons_append, List.takeWhile_cons, ha]
    rw [takeWhile_append_all p l₁ l₂ fun c hc => h c (by simp [hc])]
    rfl

/-- The first line of the side-file text is the `Command:` header line,
whenever the command string itself has no embedded newline. -/
theorem firstLine_sideFileContent (r : ExecResult) (ctime : String)
    (h : ∀ c ∈ r.command.data, (c != '\n') = true) :
    firstLineStr (sideFileContent r ctime) = "Command: " ++ r.command := by
  unfold firstLineStr sideFileContent
  have hhdr : ∀ c ∈ ("Command: " : String).data, (c != '\n') = true := by
    decide
  have hcmd : ∀ c ∈ ("Command: " ++ r.command).data, (c != '\n') = true := by
    intro c hc
    rw [String.data_append] at hc
    rcases List.mem_append.mp hc with hc | hc
    · exact hhdr c hc
    · exact h c hc
  have hdata :
      ((("Command: " ++ r.command) ++ ("\n" ++
          ("Timestamp: " ++ ctime ++ "\n" ++ sep80 ++ "\n\n" ++ r.stdout ++
            (if r.stderr ≠ "" then "\n\n" ++ sep80 ++ "\n" ++ "STDERR:\n" ++ r.stderr
             else ""))))).data =
        ("Command: " ++ r.command ++ "\n" ++ "Timestamp: " ++ ctime ++ "\n" ++
          sep80 ++ "\n\n" ++ r.stdout ++
          (if r.stderr ≠ "" then "\n\n" ++ sep80 ++ "\n" ++ "STDERR:\n" ++ r.stderr
           else "")).data := by
    simp [String.data_append, List.append_assoc]
  rw [← hdata]
  rw [String.data_append]
  rw [takeWhile_append_all _ _ _ hcmd]
  have : (("\n" ++
      ("Timestamp: " ++ ctime ++ "\n" ++ sep80 ++ "\n\n" ++ r.stdout ++
        (if r.stderr ≠ "" then "\n\n" ++ sep80 ++ "\n" ++ "STDERR:\n" ++ r.stderr
         else ""))).data).takeWhile (fun c => c != '\n') = [] := by
    rw [String.data_append]
    rfl
  rw [this, List.append_nil]

/-- The line-keeping predicate of the code agrees with the one worded
by the claim (the disjuncts are a permutation of each other). -/
theorem keepLine_eq_specKeep (line : String) (i : Nat) :
    keepLine line i = specKeep line i := by
  unfold keepLine specKeep
  cases line.startsWith "#" <;> cases strContainsB line "Summary" <;>
    cases strContainsB line "Key" <;> cases strContainsB line "Important" <;>
      cases strContainsB line "##" <;> cases Nat.decLt i 5 <;> simp_all

/-- The summary-extraction loop collects the first thirty kept lines:
the break-after-append loop is the `take 30` of the filtered
enumeration. -/
theorem summaryLoop_eq :
    ∀ (l : List String) (i : Nat) (acc : List String), acc.length < 30 →
      summaryLoop l i acc =
        acc.reverse ++
          ((((l.enumFrom i).filter fun p => keepLine p.2 p.1).map Prod.snd).take
            (30 - acc.length))
  | [], i, acc, _ => by simp [summaryLoop]
  | line :: rest, i, acc, h => by
    rw [summaryLoop]
    simp only [List.enumFrom_cons, List.filter_cons]
    cases hk : keepLine line i with
    | false =>
      rw [if_neg (by simp)]
      exact summaryLoop_eq rest (i + 1) acc h
    | true =>
      rw [if_pos rfl]
      simp only [List.length_cons]
      by_cases h29 : 30 ≤ acc.length + 1
      · rw [if_pos h29]
        have hlen : 30 - acc.length = 1 := by omega
        rw [hlen]
        simp [List.reverse_cons]
      · rw [if_neg h29]
        rw [summaryLoop_eq rest (i + 1) (line :: acc) (by simp only [List.length_cons]; omega)]
        have hlen : 30 - acc.length = (30 - (acc.length + 1)) + 1 := by omega
        rw [hlen]
        simp [List.reverse_cons, List.take_succ_cons]

/-- The summary computed by the code equals the summary worded by the
claim. -/
theorem extractSummary_eq_specSummary (stdout : String) :
    extractSummary stdout = specSummary stdout := by
  simp only [extractSummary, specSummary, specKept]
  rw [summaryLoop_eq ((stdout.splitOn "\n").take 50) 0 [] (by simp)]
  simp only [List.reverse_nil, List.nil_append, List.length_nil, Nat.sub_zero,
    List.enum, keepLine_eq_specKeep]

/-- If the first `d` attempts starting at `attempt` fail and attempt
`attempt + d` succeeds, the retry loop returns that attempt's result,
annotated when its index is positive. -/
theorem retryLoop_first_success (pt sc : String) (tg cx : Option String)
    (timeout : Nat) (env : Nat → AttemptEnv) (mr : Nat) :
    ∀ (d attempt remaining : Nat), d ≤ remaining →
      (∀ j, attempt ≤ j → j < attempt + d →
        (attemptRun pt sc tg cx timeout (env j)).success = false) →
      (attemptRun pt sc tg cx timeout (env (attempt + d))).success = true →
      retryLoop pt sc tg cx timeout env mr attempt remaining =
        (if 0 < attempt + d then
          { attemptRun pt sc tg cx timeout (env (attempt + d)) with
              retry_info := some (retryInfoStr (attempt + d)) }
         else attemptRun pt sc tg cx timeout (env (attempt + d)))
  | 0, attempt, remaining, _, _, hsucc => by
    rw [retryLoop.eq_def]
    simp only [Nat.add_zero] at hsucc ⊢
    simp [hsucc]
  | d + 1, attempt, remaining, hd, hfail, hsucc => by
    rw [retryLoop.eq_def]
    have h0 : (attemptRun pt sc tg cx timeout (env attempt)).success = false :=
      hfail attempt (Nat.le_refl _) (by omega)
    simp only [h0]
    rw [if_neg (by simp)]
    cases remaining with
    | zero => omega
    | succ r =>
      have hrec := retryLoop_first_success pt sc tg cx timeout env mr d
        (attempt + 1) r (by omega)
        (fun j hj1 hj2 => hfail j (by omega) (by omega))
        (by rw [show attempt + 1 + d = attempt + (d + 1) by omega]; exact hsucc)
      rw [show attempt + 1 + d = attempt + (d + 1) by omega] at hrec
      exact hrec

/-- If every attempt from `attempt` through `attempt + remaining`
fails, the retry loop falls through to the exhaustion result. -/
theorem retryLoop_exhaust (pt sc : String) (tg cx : Option String)
    (timeout : Nat) (env : Nat → AttemptEnv) (mr : Nat) :
    ∀ (remaining attempt : Nat),
      (∀ j, attempt ≤ j → j ≤ attempt + remaining →
        (attemptRun pt sc tg cx timeout (env j)).success = false) →
      retryLoop pt sc tg cx timeout env mr attempt remaining =
        { success := false, returncode := -1, stdout := some "",
          stderr := some ("Analysis failed after " ++ toString mr ++ " retries"),
          command := "unknown", summary := none, full_output_path := none,
          total_lines := none, retry_info := none }
  | 0, attempt, hfail => by
    rw [retryLoop.eq_def]
    have h0 := hfail attempt (Nat.le_refl _) (by omega)
    simp only [h0]
    rw [if_neg (by simp)]
  | r + 1, attempt, hfail => by
    rw [retryLoop.eq_def]
    have h0 := hfail attempt (Nat.le_refl _) (by omega)
    simp only [h0]
    rw [if_neg (by simp)]
    exact retryLoop_exhaust pt sc tg cx timeout env mr r (attempt + 1)
      (fun j h1 h2 => hfail j (by omega) (by omega))

/-- The retry loop consults only the attempt indices from `attempt`
through `attempt + remaining`: agreeing environments give equal
results. -/
theorem retryLoop_env_congr (pt sc : String) (tg cx : Option String)
    (timeout : Nat) (mr : Nat) :
    ∀ (remaining attempt : Nat) (env env2 : Nat → AttemptEnv),
      (∀ i, attempt ≤ i → i ≤ attempt + remaining → env i = env2 i) →
      retryLoop pt sc tg cx timeout env mr attempt remaining =
        retryLoop pt sc tg cx timeout env2 mr attempt remaining
  | 0, attempt, env, env2, hagree => by
    rw [retryLoop.eq_def, retryLoop.eq_def]
    dsimp only
    rw [hagree attempt (Nat.le_refl _) (by omega)]
  | r + 1, attempt, env, env2, hagree => by
    rw [retryLoop.eq_def, retryLoop.eq_def]
    dsimp only
    rw [hagree attempt (Nat.le_refl _) (by omega)]
    rw [retryLoop_env_congr pt sc tg cx timeout mr r (attempt + 1) env env2
      (fun i h1 h2 => hagree i (by omega) (by omega))]

/-! ## Claims -/

/-- C2: with the preferred tool resolving to `qwen`,
`get_analysis_command("architecture", "overview")` with no context
returns exactly the catalog command string for the architecture
overview prompt. -/
theorem claim_C2 :
    get_analysis_command "qwen" "architecture" (some "overview") none =
      "qwen --all-files --yolo -p \"Analyze the overall system architecture. Identify the main components, data flow, service boundaries, integration patterns, and key architectural decisions.\"" := by
  decide

/-- C6 (amended): the preference read agrees with the direct
case-by-case description `specGetTool`: the stored tool name is
returned exactly for a JSON object with a valid `preferred_tool`
entry; the default `qwen` is returned for a missing, unreadable or
malformed file, an object without a valid entry, or a top-level string
or array not containing the probe key; and for every other top-level
JSON value the Python `in` or subscript operation raises an uncaught
`TypeError` instead of returning the default. -/
theorem claim_C6 (file : ConfigFile) :
    get_preferred_tool file = specGetTool file := by
  cases file with
  | absent => rfl
  | readError => rfl
  | malformed => rfl
  | parsed j =>
    cases j with
    | null => rfl
    | bool b => rfl
    | num n => rfl
    | str s =>
      simp only [get_preferred_tool, specGetTool, pyContains, pyGetStrKey]
      cases h : strContainsB s "preferred_tool" with
      | true => simp
      | false => simp
    | arr elems =>
      simp only [get_preferred_tool, specGetTool, pyContains, pyGetStrKey]
      cases h : elems.any fun e => isStrEq e "preferred_tool" with
      | true => simp
      | false => simp
    | obj kvs =>
      simp only [get_preferred_tool, specGetTool, pyContains, pyGetStrKey]
      rw [anyKey_eq_lookup_isSome]
      cases h : kvs.lookup "preferred_tool" with
      | none => simp
      | some v =>
        simp only [Option.isSome_some]
        cases v with
        | str s =>
          simp only [isStrEq]
          by_cases hg : s = "gemini"
          · subst hg; simp
          · by_cases hq : s = "qwen"
            · subst hq; simp
            · simp [hg, hq]
        | null => simp [isStrEq]
        | bool b => simp [isStrEq]
        | num n => simp [isStrEq]
        | arr es => simp [isStrEq]
        | obj o => simp [isStrEq]

/-- C6 counterexample to the claim as stated: a config file that
exists and is valid JSON (the number `5`) does not make the read
return the default — Python's `"preferred_tool" in config` raises an
uncaught `TypeError` on an integer, so the call faults instead. -/
theorem claim_C6_counterexample :
    get_preferred_tool (ConfigFile.parsed (Json.num 5)) =
        Except.error PyExc.typeError ∧
    get_preferred_tool (ConfigFile.parsed (Json.num 5)) ≠ Except.ok "qwen" := by
  refine ⟨rfl, ?_⟩
  intro h
  exact Except.noConfusion ((rfl :
    get_preferred_tool (ConfigFile.parsed (Json.num 5)) =
      Except.error PyExc.typeError) ▸ h)

/-- C7: an invalid tool name is rejected by `set_preferred_tool` with
a `ValueError` raised before any file-system operation, so the config
file and its parent directory are unchanged by the failed call. -/
theorem claim_C7 (st : FsState) (tool : String) (writeOk : Bool)
    (h : tool ≠ "gemini" ∧ tool ≠ "qwen") :
    (set_preferred_tool st tool writeOk).exc = some PyExc.valueError ∧
    (set_preferred_tool st tool writeOk).fs = st := by
  unfold set_preferred_tool
  rw [if_pos h]
  exact ⟨rfl, rfl⟩

/-- C7 witness at the concrete invalid tool name `claude`. -/
theorem claim_C7_witness :
    (set_preferred_tool ⟨false, ConfigFile.absent⟩ "claude" true).exc =
        some PyExc.valueError ∧
    (set_preferred_tool ⟨false, ConfigFile.absent⟩ "claude" true).fs =
      ⟨false, ConfigFile.absent⟩ :=
  claim_C7 ⟨false, ConfigFile.absent⟩ "claude" true (by decide)

/-- C8: after a successful `set_preferred_tool(t)` with a valid tool
name, from any prior config-file state, `get_preferred_tool` returns
`t`; and when the prior file held a JSON object, the rewritten object
preserves the binding of every other key. -/
theorem claim_C8 (st : FsState) (tool : String) (writeOk : Bool)
    (htool : tool = "gemini" ∨ tool = "qwen")
    (hok : (set_preferred_tool st tool writeOk).exc = none) :
    get_preferred_tool (set_preferred_tool st tool writeOk).fs.file =
        Except.ok tool ∧
    (∀ kvs, st.file = ConfigFile.parsed (Json.obj kvs) →
      ∃ kvs2,
        (set_preferred_tool st tool writeOk).fs.file =
            ConfigFile.parsed (Json.obj kvs2) ∧
        ∀ k, k ≠ "preferred_tool" → kvs2.lookup k = kvs.lookup k) := by
  have hvalid : ¬(tool ≠ "gemini" ∧ tool ≠ "qwen") := by
    rcases htool with rfl | rfl <;> simp
  unfold set_preferred_tool at hok ⊢
  rw [if_neg hvalid] at hok ⊢
  cases hst : st.file with
  | absent =>
    rw [hst] at hok
    cases writeOk with
    | false => simp at hok
    | true =>
      refine ⟨get_preferred_tool_dictSet [] tool htool, ?_⟩
      intro kvs hkvs
      cases hkvs
  | readError =>
    rw [hst] at hok
    cases writeOk with
    | false => simp at hok
    | true =>
      refine ⟨get_preferred_tool_dictSet [] tool htool, ?_⟩
      intro kvs hkvs
      cases hkvs
  | malformed =>
    rw [hst] at hok
    cases writeOk with
    | false => simp at hok
    | true =>
      refine ⟨get_preferred_tool_dictSet [] tool htool, ?_⟩
      intro kvs hkvs
      cases hkvs
  | parsed j =>
    rw [hst] at hok
    cases j with
    | obj kvs0 =>
      cases writeOk with
      | false => simp at hok
      | true =>
        refine ⟨get_preferred_tool_dictSet kvs0 tool htool, ?_⟩
        intro kvs hkvs
        cases hkvs
        exact ⟨dictSet kvs0 "preferred_tool" (Json.str tool), rfl,
          fun k hk => lookup_dictSet_ne kvs0 "preferred_tool" (Json.str tool) k hk⟩
    | null => simp at hok
    | bool b => simp at hok
    | num n => simp at hok
    | str s => simp at hok
    | arr es => simp at hok

/-- C8 witness: setting `gemini` over a config object holding an
unrelated key keeps that key's binding and reads back `gemini`. -/
theorem claim_C8_witness :
    get_preferred_tool
        (set_preferred_tool
          ⟨false, ConfigFile.parsed (Json.obj [("other", Json.num 1)])⟩
          "gemini" true).fs.file = Except.ok "gemini" ∧
    (∀ kvs,
      (⟨false, ConfigFile.parsed (Json.obj [("other", Json.num 1)])⟩ : FsState).file =
          ConfigFile.parsed (Json.obj kvs) →
      ∃ kvs2,
        (set_preferred_tool
          ⟨false, ConfigFile.parsed (Json.obj [("other", Json.num 1)])⟩
          "gemini" true).fs.file = ConfigFile.parsed (Json.obj kvs2) ∧
        ∀ k, k ≠ "preferred_tool" → kvs2.lookup k = kvs.lookup k) :=
  claim_C8 ⟨false, ConfigFile.parsed (Json.obj [("other", Json.num 1)])⟩
    "gemini" true (Or.inl rfl) rfl

/-- Containment of a string survives the optional context-append step
of the prompt builder. -/
theorem ctx_step (prompt s : String) (context : Option String)
    (h : strContainsB prompt s = true) :
    strContainsB
      (match context with
        | some c => if c ≠ "" then prompt ++ " Context: " ++ c else prompt
        | none => prompt) s = true := by
  cases context with
  | none => exact h
  | some c =>
    dsimp only
    by_cases hc : c = ""
    · rw [if_neg (by simp [hc])]
      exact h
    · rw [if_pos hc]
      exact strContainsB_append_right _ _ _ (strContainsB_append_right _ _ _ h)

/-- C1 (amended): for a (scenario, target) pair present in the
catalog, the builder produces the exact literal catalog prompt; for
every other scenario/target combination it produces a generated
fallback string containing the literal scenario name; it never faults
(the embedding is a total function).  When a non-empty context is
supplied, the suffix ` Context: <context>` is appended verbatim and
nothing else changes; a supplied empty context string is falsy in
Python and appends nothing (`ctxSuffix`). -/
theorem claim_C1 (scenario : String) (target context : Option String) :
    (∀ targets t p, ANALYSIS_PROMPTS.lookup scenario = some targets →
        target = some t → targets.lookup t = some p →
        analysis_prompt scenario target context = p ++ ctxSuffix context) ∧
    ((∀ targets t, ANALYSIS_PROMPTS.lookup scenario = some targets →
        target = some t → t ≠ "" → targets.lookup t = none) →
      strContainsB (analysis_prompt scenario target context) scenario = true) := by
  constructor
  · intro targets t p hs ht hp
    subst ht
    have htne : t ≠ "" := by
      intro he
      subst he
      rw [catalog_lookup_empty scenario targets hs] at hp
      cases hp
    simp only [analysis_prompt, hs, hp, if_pos htne]
    cases context with
    | none => simp [ctxSuffix]
    | some c =>
      dsimp only
      by_cases hc : c = ""
      · rw [if_neg (by simp [hc])]
        simp [ctxSuffix, hc]
      · rw [if_pos hc]
        simp [ctxSuffix, hc, String.append_assoc]
  · intro hmiss
    unfold analysis_prompt
    cases hs : ANALYSIS_PROMPTS.lookup scenario with
    | none =>
      dsimp only
      exact ctx_step _ _ context
        (strContainsB_append_right _ _ _
          (strContainsB_append_self "Analyze this codebase focusing on " scenario))
    | some targets =>
      have hbase : strContainsB
          ("Perform " ++ scenario ++
            " analysis on this codebase. Provide comprehensive insights and identify key patterns.")
          scenario = true :=
        strContainsB_append_right _ _ _
          (strContainsB_append_self "Perform " scenario)
      dsimp only
      cases target with
      | none => exact ctx_step _ _ context hbase
      | some t =>
        dsimp only
        by_cases htne : t = ""
        · rw [if_neg (by simp [htne])]
          exact ctx_step _ _ context hbase
        · rw [if_pos htne, hmiss targets t hs rfl htne]
          exact ctx_step _ _ context hbase

/-- C1 counterexample to the claim as stated: supplying the context
argument as the empty string appends nothing, because Python's
`if context:` treats the empty string as falsy — the claimed
unconditional ` Context: <context>` suffix is missing. -/
theorem claim_C1_counterexample :
    analysis_prompt "architecture" (some "overview") (some "") =
      "Analyze the overall system architecture. Identify the main components, data flow, service boundaries, integration patterns, and key architectural decisions." ∧
    analysis_prompt "architecture" (some "overview") (some "") ≠
      "Analyze the overall system architecture. Identify the main components, data flow, service boundaries, integration patterns, and key architectural decisions." ++
        " Context: " := by
  constructor
  · decide
  · decide

/-- C1 witness: a catalog pair with a non-empty context receives the
literal catalog prompt plus the verbatim context suffix. -/
theorem claim_C1_witness :
    analysis_prompt "architecture" (some "overview") (some "deep dive") =
      "Analyze the overall system architecture. Identify the main components, data flow, service boundaries, integration patterns, and key architectural decisions." ++
        ctxSuffix (some "deep dive") :=
  (claim_C1 "architecture" (some "overview") (some "deep dive")).1
    _ "overview" _ rfl rfl rfl

/-- C3: on a successful base run with a successful side-file write,
the optimized run's summary equals the summary described by the
specification (`specSummary`): scan the first fifty lines, keep
indices below five and header or marker lines up to thirty, and pad
with the first twenty raw lines when fewer than ten were kept. -/
theorem claim_C3 (pt sc : String) (tg cx : Option String)
    (timeout timestamp : Nat) (ctime out err : String) :
    (execute_analysis_optimized pt sc tg cx timeout
        (SubprocessOutcome.completed 0 out err) timestamp ctime
        WriteOutcome.ok).summary = some (specSummary out) := by
  simp [execute_analysis_optimized, execute_analysis,
    extractSummary_eq_specSummary]

/-- C9 (amended): on a successful base run with a successful side-file
write, `total_lines` equals the number of newline-delimited segments
of the raw stdout (unconditionally), and — provided the executed
command contains no newline — the first line of the side-file text
contains the executed command. -/
theorem claim_C9 (pt sc : String) (tg cx : Option String)
    (timeout timestamp : Nat) (ctime out err : String) :
    (execute_analysis_optimized pt sc tg cx timeout
        (SubprocessOutcome.completed 0 out err) timestamp ctime
        WriteOutcome.ok).total_lines = some (out.splitOn "\n").length ∧
    ((∀ c ∈ (execute_analysis pt sc tg cx timeout
        (SubprocessOutcome.completed 0 out err)).command.data,
        (c != '\n') = true) →
      strContainsB
        (firstLineStr (sideFileContent
          (execute_analysis pt sc tg cx timeout
            (SubprocessOutcome.completed 0 out err)) ctime))
        (execute_analysis pt sc tg cx timeout
          (SubprocessOutcome.completed 0 out err)).command = true) := by
  constructor
  · simp [execute_analysis_optimized, execute_analysis]
  · intro hcmd
    rw [firstLine_sideFileContent _ _ hcmd]
    exact strContainsB_append_self _ _

/-- C9 witness at a concrete successful run whose command has no
newline, discharging the no-newline hypothesis of the first-line
conjunct. -/
theorem claim_C9_witness :
    (execute_analysis_optimized "qwen" "quality" none none 300
        (SubprocessOutcome.completed 0 "a\nb" "") 5 "Mon" WriteOutcome.ok).total_lines =
      some (("a\nb" : String).splitOn "\n").length ∧
    strContainsB
      (firstLineStr (sideFileContent
        (execute_analysis "qwen" "quality" none none 300
          (SubprocessOutcome.completed 0 "a\nb" "")) "Mon"))
      (execute_analysis "qwen" "quality" none none 300
        (SubprocessOutcome.completed 0 "a\nb" "")).command = true :=
  ⟨(claim_C9 "qwen" "quality" none none 300 5 "Mon" "a\nb" "").1,
   (claim_C9 "qwen" "quality" none none 300 5 "Mon" "a\nb" "").2 (by decide)⟩

/-- C9 counterexample to the claim as stated: a scenario containing a
newline produces a command containing a newline, the base run
succeeds and the write succeeds, yet the first line of the side-file
text does not contain the executed command (the command is cut at its
newline). -/
theorem claim_C9_counterexample :
    (execute_analysis "qwen" "x\ny" none none 300
        (SubprocessOutcome.completed 0 "" "")).success = true ∧
    strContainsB
      (firstLineStr (sideFileContent
        (execute_analysis "qwen" "x\ny" none none 300
          (SubprocessOutcome.completed 0 "" "")) "t"))
      (execute_analysis "qwen" "x\ny" none none 300
        (SubprocessOutcome.completed 0 "" "")).command = false := by
  constructor
  · decide
  · decide

/-- C4: the retry run performs at most `max_retries + 1` attempts (its
result depends only on the attempt environments with index at most
`max_retries`); when the attempts before index `k` fail and attempt
`k ≤ max_retries` succeeds, it returns attempt `k`'s result, annotated
with `retry_info` naming `k` retries exactly when `k > 0`; and when
every attempt fails it returns a failure with `success = false`, a
`stderr` describing the retry exhaustion, and `command = "unknown"`. -/
theorem claim_C4 (pt sc : String) (tg cx : Option String) (timeout : Nat)
    (env : Nat → AttemptEnv) (max_retries : Nat) :
    (∀ k, k ≤ max_retries →
      (∀ j, j < k → (attemptRun pt sc tg cx timeout (env j)).success = false) →
      (attemptRun pt sc tg cx timeout (env k)).success = true →
      execute_analysis_with_retry pt sc tg cx timeout env max_retries =
        (if 0 < k then
          { attemptRun pt sc tg cx timeout (env k) with
              retry_info := some (retryInfoStr k) }
         else attemptRun pt sc tg cx timeout (env k))) ∧
    ((∀ j, j ≤ max_retries →
        (attemptRun pt sc tg cx timeout (env j)).success = false) →
      (execute_analysis_with_retry pt sc tg cx timeout env max_retries).success =
          false ∧
      (execute_analysis_with_retry pt sc tg cx timeout env max_retries).stderr =
        some ("Analysis failed after " ++ toString max_retries ++ " retries") ∧
      (execute_analysis_with_retry pt sc tg cx timeout env max_retries).command =
        "unknown") ∧
    (∀ env2 : Nat → AttemptEnv, (∀ i, i ≤ max_retries → env i = env2 i) →
      execute_analysis_with_retry pt sc tg cx timeout env max_retries =
        execute_analysis_with_retry pt sc tg cx timeout env2 max_retries) := by
  refine ⟨?_, ?_, ?_⟩
  · intro k hk hfail hsucc
    unfold execute_analysis_with_retry
    have := retryLoop_first_success pt sc tg cx timeout env max_retries k 0
      max_retries hk (fun j hj1 hj2 => hfail j (by omega))
      (by rw [Nat.zero_add]; exact hsucc)
    rw [Nat.zero_add] at this
    exact this
  · intro hfail
    unfold execute_analysis_with_retry
    rw [retryLoop_exhaust pt sc tg cx timeout env max_retries max_retries 0
      (fun j hj1 hj2 => hfail j (by omega))]
    exact ⟨rfl, rfl, rfl⟩
  · intro env2 hagree
    unfold execute_analysis_with_retry
    exact retryLoop_env_congr pt sc tg cx timeout max_retries max_retries 0
      env env2 (fun i h1 h2 => hagree i (by omega))

/-- C4 witness: two failing attempts followed by a successful third
with `max_retries = 2` return the third attempt's result annotated
with two retries. -/
theorem claim_C4_witness :
    execute_analysis_with_retry "qwen" "quality" none none 300
        (fun i => if i < 2 then ⟨SubprocessOutcome.execError "boom", 0, "t", WriteOutcome.ok⟩
                  else ⟨SubprocessOutcome.completed 0 "fine" "", 7, "t", WriteOutcome.ok⟩) 2 =
      (if 0 < 2 then
        { attemptRun "qwen" "quality" none none 300
            (if 2 < 2 then ⟨SubprocessOutcome.execError "boom", 0, "t", WriteOutcome.ok⟩
             else ⟨SubprocessOutcome.completed 0 "fine" "", 7, "t", WriteOutcome.ok⟩) with
            retry_info := some (retryInfoStr 2) }
       else attemptRun "qwen" "quality" none none 300
            (if 2 < 2 then ⟨SubprocessOutcome.execError "boom", 0, "t", WriteOutcome.ok⟩
             else ⟨SubprocessOutcome.completed 0 "fine" "", 7, "t", WriteOutcome.ok⟩)) :=
  (claim_C4 "qwen" "quality" none none 300
      (fun i => if i < 2 then ⟨SubprocessOutcome.execError "boom", 0, "t", WriteOutcome.ok⟩
                else ⟨SubprocessOutcome.completed 0 "fine" "", 7, "t", WriteOutcome.ok⟩) 2).1
    2 (by omega)
    (by
      intro j hj
      interval_cases j <;> rfl)
    (by rfl)

/-- C10: for either resolved tool, the configured command builder and
the duplicated per-tool helper construct the same command string. -/
theorem claim_C10 (scenario : String) (target : Option String) :
    get_analysis_command "gemini" scenario target none =
      _get_analysis_command_for_tool scenario target "gemini" ∧
    get_analysis_command "qwen" scenario target none =
      _get_analysis_command_for_tool scenario target "qwen" := by
  constructor <;> rfl
